import Mathlib

/-! VAM portfolio site: static markup and project files.

A shallow embedding of the page components and project files that the
repository document `index.html.jsx` prescribes:

* `Node` is the markup tree a JSX or HTML expression denotes;
* `Home` is the homepage component of `pages/index.js`;
* `MyApp` is the application shell of `pages/_app.js`, run on a model of the
  React 18 element factory, and `MyAppTs` the `pages/_app.tsx` variant, run
  as its compiled code;
* `fallback_html` is the tree of the stand-alone `fallback.html`;
* the project files are kept line by line as `List String`.

Conventions of the embedding.  An attribute written `name="v"`, or with an
expression for `v`, is the pair `(name, v)`; the React `key` is kept apart from the attributes, as
React does not hand it to the DOM.  JSX drops the white space between a line
break and a tag, so only the text written on the line of an element is a text
child.  An array child (the result of `.map`) contributes its elements, in
order, to the children of the enclosing element, which is how it is rendered.
In the HTML file the white-space-only text between tags is left out of the
tree.
-/

namespace Vam

/-! ## Markup trees -/

/-- Markup tree: a text node, or an element with a tag name, an optional React
key, its attributes in source order and its children in source order. -/
inductive Node where
  | text (value : String)
  | elem (tag : String) (key : Option Nat) (attrs : List (String × String))
      (children : List Node)

namespace Node

/-- Tag name of an element, `none` for a text node. -/
def tag? : Node → Option String
  | text _ => none
  | elem t _ _ _ => some t

/-- React key of an element. -/
def key? : Node → Option Nat
  | text _ => none
  | elem _ k _ _ => k

/-- Attribute list of an element. -/
def attrs : Node → List (String × String)
  | text _ => []
  | elem _ _ as _ => as

/-- Direct children of an element. -/
def children : Node → List Node
  | text _ => []
  | elem _ _ _ cs => cs

/-- Value of the first attribute called `name`, if any. -/
def attr (n : Node) (name : String) : Option String :=
  (n.attrs.find? (fun p => p.1 == name)).map (fun p => p.2)

/-- Whether the node is an element with the given tag name. -/
def hasTag (t : String) (n : Node) : Bool :=
  n.tag? == some t

mutual
/-- Concatenated text of a node and all its descendants (DOM `textContent`). -/
def textContent : Node → String
  | text s => s
  | elem _ _ _ cs => textContentList cs
/-- Concatenated text of a list of sibling nodes. -/
def textContentList : List Node → String
  | [] => ""
  | c :: cs => textContent c ++ textContentList cs
end

mutual
/-- All proper descendants of a node, in document order. -/
def descendants : Node → List Node
  | text _ => []
  | elem _ _ _ cs => descendantsList cs
/-- The nodes of a list of siblings together with their descendants, in
document order. -/
def descendantsList : List Node → List Node
  | [] => []
  | c :: cs => c :: (descendants c ++ descendantsList cs)
end

/-- The node itself followed by its descendants, in document order. -/
def subtree (n : Node) : List Node :=
  n :: n.descendants

/-- Elements with tag `t` among the descendants (DOM `getElementsByTagName`). -/
def byTag (n : Node) (t : String) : List Node :=
  n.descendants.filter (hasTag t)

/-- Elements of the whole tree whose `id` attribute is `i`. -/
def byId (n : Node) (i : String) : List Node :=
  n.subtree.filter (fun m => m.attr "id" == some i)

/-- The `id` attributes present in the whole tree, in document order. -/
def ids (n : Node) : List String :=
  n.subtree.filterMap (fun m => m.attr "id")

end Node

/-! ## `pages/index.js` -/

/-- The arrow function `item => (...)` handed to `.map` in the portfolio
section (source lines 131 to 135): a keyed `div` wrapping one `img` whose `src`
and `alt` are template literals over `item`. -/
def portfolioItem (item : Nat) : Node :=
  .elem "div" (some item)
    [("className", "bg-gray-800 h-64 rounded-2xl shadow-lg overflow-hidden")]
    [ .elem "img" none
        [ ("src", "https://via.placeholder.com/600x400?text=Project+" ++ toString item),
          ("alt", "Project " ++ toString item),
          ("className", "w-full h-full object-cover") ]
        [] ]

/-- The component `Home` of `pages/index.js` (source lines 111 to 153).  It has no
parameter; the `Unit` argument stands for the call `Home()`. -/
def Home (_ : Unit) : Node :=
  .elem "div" none [("className", "min-h-screen flex flex-col")]
    [ .elem "section" none
        [("className", "flex flex-col justify-center items-center flex-1 text-center px-6")]
        [ .elem "h1" none [("className", "text-7xl font-bold tracking-widest")] [.text "VAM"],
          .elem "p" none [("className", "mt-6 text-xl max-w-2xl")]
            [.text "Designs that Speak. Creativity that Lasts."],
          .elem "div" none [("className", "mt-8 flex gap-6")]
            [ .elem "a" none
                [ ("href", "#portfolio"),
                  ("className", "px-8 py-3 bg-white text-black rounded-2xl font-semibold") ]
                [.text "View Portfolio"],
              .elem "a" none
                [ ("href", "#contact"),
                  ("className", "px-8 py-3 border border-white rounded-2xl font-semibold") ]
                [.text "Hire Me"] ] ],
      .elem "section" none
        [("id", "about"), ("className", "py-24 bg-white text-black text-center px-6")]
        [ .elem "h2" none [("className", "text-5xl font-bold mb-8")] [.text "About Me"],
          .elem "p" none [("className", "max-w-3xl mx-auto text-lg")]
            [ .text "I’m Mohammad, the creative mind behind ",
              .elem "span" none [("className", "font-bold")] [.text "VAM"],
              .text ". I craft unique visuals that help brands stand out, connect, and grow." ] ],
      .elem "section" none
        [("id", "portfolio"), ("className", "py-24 text-center px-6")]
        [ .elem "h2" none [("className", "text-5xl font-bold mb-12")] [.text "Portfolio"],
          .elem "div" none
            [("className", "grid grid-cols-1 md:grid-cols-3 gap-8 max-w-6xl mx-auto")]
            ([1, 2, 3, 4, 5, 6].map portfolioItem) ],
      .elem "section" none
        [("id", "contact"), ("className", "py-24 text-center px-6")]
        [ .elem "h2" none [("className", "text-5xl font-bold mb-8")]
            [.text "Let’s Create Something Amazing"],
          .elem "p" none [("className", "mb-6 text-lg")]
            [ .text "Call me: ",
              .elem "a" none [("href", "tel:+97636689290"), ("className", "font-semibold")]
                [.text "+976 36689290"] ],
          .elem "form" none [("className", "w-full max-w-lg mx-auto space-y-4")]
            [ .elem "input" none
                [ ("type", "text"), ("placeholder", "Your Name"),
                  ("className", "w-full border p-3 rounded") ] [],
              .elem "input" none
                [ ("type", "email"), ("placeholder", "Your Email"),
                  ("className", "w-full border p-3 rounded") ] [],
              .elem "textarea" none
                [("placeholder", "Your Message"), ("className", "w-full border p-3 rounded")] [],
              .elem "button" none
                [ ("className",
                    "w-full bg-white text-black py-3 rounded-2xl font-semibold hover:bg-gray-200") ]
                [.text "Send Message"] ] ],
      .elem "footer" none [("className", "py-6 bg-black text-center border-t border-gray-800")]
        [ .elem "p" none [("className", "text-sm")]
            [.text "© 2025 VAM. All Rights Reserved."] ] ]

/-! ## The React 18 element factory

`package.json` pins `react` to `18.x`.  The JSX expression of the shell is
compiled to a call of React's element factory (`jsx` of `react/jsx-runtime`);
the part of it that decides what a component receives is modelled here: the
reserved property names, the copy of the remaining properties, and the
resolution of `defaultProps`. -/

/-- A property value: JavaScript `undefined`, or a proper value. -/
inductive Value (α : Type) where
  | undefined
  | val (a : α)
  deriving DecidableEq

/-- A JavaScript object: its own enumerable properties, in enumeration order.
Property names are distinct in a well-formed object. -/
abbrev Obj (α : Type) := List (String × Value α)

namespace Obj

/-- The property names of an object. -/
def names {α : Type} (o : Obj α) : List String :=
  o.map (fun p => p.1)

/-- Read `o[name]`: `none` when the object has no such own property. -/
def get? {α : Type} (o : Obj α) (name : String) : Option (Value α) :=
  (o.find? (fun p => p.1 == name)).map (fun p => p.2)

/-- Assign `o[name] = v`: an existing property keeps its place and takes the new
value, a new property is added last. -/
def set {α : Type} : Obj α → String → Value α → Obj α
  | [], name, v => [(name, v)]
  | (n, w) :: rest, name, v =>
    if n == name then (n, v) :: rest else (n, w) :: set rest name v

/-- Whether `o[name] === undefined`: the property is missing or holds
`undefined`. -/
def isUndefined {α : Type} (o : Obj α) (name : String) : Bool :=
  match o.get? name with
  | none => true
  | some .undefined => true
  | some (.val _) => false

/-- The loop `for (name in source) if (!skip[name]) target[name] = source[name]`. -/
def assignExcept {α : Type} (skip : List String) (target source : Obj α) : Obj α :=
  source.foldl (fun t p => if skip.contains p.1 then t else t.set p.1 p.2) target

end Obj

/-- The object literal with one spread, written with `...o` between braces: a fresh
object that receives every own enumerable property of `o`. -/
def spread {α : Type} (o : Obj α) : Obj α :=
  Obj.assignExcept [] [] o

/-- A function component: the function from props to markup, and the static
`defaultProps` object it may carry. -/
structure FunctionComponent (α : Type) where
  fn : Obj α → Node
  defaultProps : Option (Obj α)

/-- A React element whose type is a function component. -/
structure Element (α : Type) where
  type : FunctionComponent α
  key : Option String
  ref : Option α
  props : Obj α

/-- The property names React's element factory keeps out of the props. -/
def RESERVED_PROPS : List String :=
  ["key", "ref", "__self", "__source"]

/-- Resolution of `defaultProps`: each default whose property is `undefined` in
the props is assigned to it. -/
def resolveDefaultProps {α : Type} (defaults : Option (Obj α)) (props : Obj α) : Obj α :=
  match defaults with
  | none => props
  | some d => d.foldl (fun ps p => if ps.isUndefined p.1 then ps.set p.1 p.2 else ps) props

/-- React 18's element factory `jsx(type, config)`: `key` and `ref` are taken
from `config` when they are not `undefined` (the key as a string), every other
property that is not reserved is copied into fresh props, and the defaults of
the component are resolved. -/
def jsx {α : Type} [ToString α] (type : FunctionComponent α) (config : Obj α) : Element α :=
  { type := type,
    key := match config.get? "key" with
      | some (.val a) => some (toString a)
      | _ => none,
    ref := match config.get? "ref" with
      | some (.val a) => some a
      | _ => none,
    props := resolveDefaultProps type.defaultProps (Obj.assignExcept RESERVED_PROPS [] config) }

/-- Rendering a component element calls the component on the element's props. -/
def Element.render {α : Type} (e : Element α) : Node :=
  e.type.fn e.props

/-! ## `pages/_app.js` -/

/-- The object the framework hands to the application shell: the routed page
component, the props object computed for it, and the remaining properties (the
router and the like), which the parameter pattern of `MyApp` does not bind. -/
structure AppProps (α R : Type) where
  Component : FunctionComponent α
  pageProps : Obj α
  rest : R

/-- The shell `MyApp` of `pages/_app.js` (source lines 92 to 94): it binds
`Component` and `pageProps` from its argument and returns the element
`<Component ...pageProps />`, that is the element factory applied to
`Component` and to the object literal that spreads `pageProps`. -/
def MyApp {α R : Type} [ToString α] : AppProps α R → Element α
  | ⟨Component, pageProps, _⟩ => jsx Component (spread pageProps)

/-- A component that lists the names of the props it receives, one `li` each. -/
def showProps : FunctionComponent String :=
  { fn := fun props => .elem "ul" none [] (props.map (fun p => .elem "li" none [] [.text p.1])),
    defaultProps := none }

/-- The component `showProps` with a default for the prop `theme`. -/
def showPropsWithDefault : FunctionComponent String :=
  { showProps with defaultProps := some [("theme", .val "dark")] }

/-! ## `fallback.html` -/

/-- The document tree of `fallback.html` (source lines 178 to 199); the
`doctype` line is not a node of the tree. -/
def fallback_html : Node :=
  .elem "html" none []
    [ .elem "head" none []
        [ .elem "meta" none [("charset", "utf-8")] [],
          .elem "title" none [] [.text "VAM - Fallback"],
          .elem "style" none []
            [ .text ("\n      html,body\x7bheight:100%;margin:0;font-family:Arial,Helvetica,sans-serif\x7d"
                ++ "\n      .center\x7bdisplay:flex;align-items:center;justify-content:center;height:100%;flex-direction:column;background:black;color:white\x7d"
                ++ "\n      .btn\x7bbackground:white;color:black;padding:12px 24px;border-radius:18px;margin:8px;text-decoration:none\x7d"
                ++ "\n    ") ] ],
      .elem "body" none []
        [ .elem "div" none [("class", "center")]
            [ .elem "h1" none [("style", "font-size:64px;margin:0")] [.text "VAM"],
              .elem "p" none [("style", "max-width:600px;text-align:center")]
                [.text "Designs that Speak. Creativity that Lasts."],
              .elem "div" none [("style", "margin-top:20px")]
                [ .elem "a" none [("class", "btn"), ("href", "#")] [.text "View Portfolio"],
                  .elem "a" none [("class", "btn"), ("href", "#")] [.text "Hire Me"] ] ] ] ]

/-! ## Project files, line by line -/

/-- Lines of the file package.json (source lines 40 to 59). -/
def package_json : List String :=
  [
    "\x7b",
    "  \"name\": \"vam-website\",",
    "  \"version\": \"1.0.0\",",
    "  \"private\": true,",
    "  \"scripts\": \x7b",
    "    \"dev\": \"next dev\",",
    "    \"build\": \"next build\",",
    "    \"start\": \"next start\"",
    "  \x7d,",
    "  \"dependencies\": \x7b",
    "    \"next\": \"14.x\",",
    "    \"react\": \"18.x\",",
    "    \"react-dom\": \"18.x\"",
    "  \x7d,",
    "  \"devDependencies\": \x7b",
    "    \"tailwindcss\": \"^3.x\",",
    "    \"postcss\": \"^8.x\",",
    "    \"autoprefixer\": \"^10.x\"",
    "  \x7d",
    "\x7d"
  ]

/-- Lines of the file postcss.config.js (source lines 66 to 71). -/
def postcss_config_js : List String :=
  [
    "module.exports = \x7b",
    "  plugins: \x7b",
    "    tailwindcss: \x7b\x7d,",
    "    autoprefixer: \x7b\x7d",
    "  \x7d",
    "\x7d;"
  ]

/-- Lines of the file tailwind.config.js (source lines 78 to 83). -/
def tailwind_config_js : List String :=
  [
    "/** @type \x7bimport('tailwindcss').Config\x7d */",
    "module.exports = \x7b",
    "  content: [\"./pages/**/*.\x7bjs,ts,jsx,tsx\x7d\", \"./components/**/*.\x7bjs,ts,jsx,tsx\x7d\", \"./app/**/*.\x7bjs,ts,jsx,tsx\x7d\"],",
    "  theme: \x7b extend: \x7b\x7d \x7d,",
    "  plugins: []",
    "\x7d;"
  ]

/-- Lines of the file pages/_app.js (source lines 90 to 94). -/
def pages_app_js : List String :=
  [
    "import '../styles/globals.css';",
    "",
    "export default function MyApp(\x7b Component, pageProps \x7d) \x7b",
    "  return <Component \x7b...pageProps\x7d />;",
    "\x7d"
  ]

/-- Lines of the file pages/_app.tsx, the block quote marker removed (source lines 99 to 104). -/
def pages_app_tsx : List String :=
  [
    "import '../styles/globals.css';",
    "import type \x7b AppProps \x7d from 'next/app';",
    "",
    "export default function MyApp(\x7b Component, pageProps \x7d: AppProps) \x7b",
    "  return <Component \x7b...pageProps\x7d />;",
    "\x7d"
  ]

/-- Lines of the file pages/index.js (source lines 111 to 153). -/
def pages_index_js : List String :=
  [
    "export default function Home() \x7b",
    "  return (",
    "    <div className=\"min-h-screen flex flex-col\">",
    "      <section className=\"flex flex-col justify-center items-center flex-1 text-center px-6\">",
    "        <h1 className=\"text-7xl font-bold tracking-widest\">VAM</h1>",
    "        <p className=\"mt-6 text-xl max-w-2xl\">Designs that Speak. Creativity that Lasts.</p>",
    "        <div className=\"mt-8 flex gap-6\">",
    "          <a href=\"#portfolio\" className=\"px-8 py-3 bg-white text-black rounded-2xl font-semibold\">View Portfolio</a>",
    "          <a href=\"#contact\" className=\"px-8 py-3 border border-white rounded-2xl font-semibold\">Hire Me</a>",
    "        </div>",
    "      </section>",
    "",
    "      <section id=\"about\" className=\"py-24 bg-white text-black text-center px-6\">",
    "        <h2 className=\"text-5xl font-bold mb-8\">About Me</h2>",
    "        <p className=\"max-w-3xl mx-auto text-lg\">I’m Mohammad, the creative mind behind <span className=\"font-bold\">VAM</span>. I craft unique visuals that help brands stand out, connect, and grow.</p>",
    "      </section>",
    "",
    "      <section id=\"portfolio\" className=\"py-24 text-center px-6\">",
    "        <h2 className=\"text-5xl font-bold mb-12\">Portfolio</h2>",
    "        <div className=\"grid grid-cols-1 md:grid-cols-3 gap-8 max-w-6xl mx-auto\">",
    "          \x7b[1,2,3,4,5,6].map(item => (",
    "            <div key=\x7bitem\x7d className=\"bg-gray-800 h-64 rounded-2xl shadow-lg overflow-hidden\">",
    "              <img src=\x7b`https://via.placeholder.com/600x400?text=Project+$\x7bitem\x7d`\x7d alt=\x7b`Project $\x7bitem\x7d`\x7d className=\"w-full h-full object-cover\" />",
    "            </div>",
    "          ))\x7d",
    "        </div>",
    "      </section>",
    "",
    "      <section id=\"contact\" className=\"py-24 text-center px-6\">",
    "        <h2 className=\"text-5xl font-bold mb-8\">Let’s Create Something Amazing</h2>",
    "        <p className=\"mb-6 text-lg\">Call me: <a href=\"tel:+97636689290\" className=\"font-semibold\">+976 36689290</a></p>",
    "        <form className=\"w-full max-w-lg mx-auto space-y-4\">",
    "          <input type=\"text\" placeholder=\"Your Name\" className=\"w-full border p-3 rounded\" />",
    "          <input type=\"email\" placeholder=\"Your Email\" className=\"w-full border p-3 rounded\" />",
    "          <textarea placeholder=\"Your Message\" className=\"w-full border p-3 rounded\" />",
    "          <button className=\"w-full bg-white text-black py-3 rounded-2xl font-semibold hover:bg-gray-200\">Send Message</button>",
    "        </form>",
    "      </section>",
    "",
    "      <footer className=\"py-6 bg-black text-center border-t border-gray-800\"><p className=\"text-sm\">© 2025 VAM. All Rights Reserved.</p></footer>",
    "    </div>",
    "  );",
    "\x7d"
  ]

/-- Lines of the file styles/globals.css (source lines 162 to 166). -/
def styles_globals_css : List String :=
  [
    "@tailwind base;",
    "@tailwind components;",
    "@tailwind utilities;",
    "",
    "body \x7b font-family: Inter, ui-sans-serif, system-ui, -apple-system, \"Segoe UI\", Roboto, \"Helvetica Neue\", Arial; \x7d"
  ]

/-- The project files the document prescribes, with their paths. -/
def project : List (String × List String) :=
  [ ("package.json", package_json),
    ("postcss.config.js", postcss_config_js),
    ("tailwind.config.js", tailwind_config_js),
    ("pages/_app.js", pages_app_js),
    ("pages/index.js", pages_index_js),
    ("styles/globals.css", styles_globals_css) ]

/-! ## Reading lines -/

/-- Whether the characters `p` open the characters `l`. -/
def opens : List Char → List Char → Bool
  | [], _ => true
  | _ :: _, [] => false
  | a :: p, b :: l => a == b && opens p l

/-- Whether line `l` begins with `p` (JavaScript `l.startsWith(p)`). -/
def startsWith (l p : String) : Bool :=
  opens p.data l.data

/-- Whether `p` occurs somewhere in the characters `l`. -/
def occurs (p : List Char) : List Char → Bool
  | [] => opens p []
  | c :: l => opens p (c :: l) || occurs p l

/-- Whether line `l` contains `p` (JavaScript `l.includes(p)`). -/
def includes (l p : String) : Bool :=
  occurs p.data l.data

/-- A line with its leading white space dropped. -/
def trimStart (l : String) : String :=
  ⟨l.data.dropWhile Char.isWhitespace⟩

/-- A string with every white-space character removed. -/
def removeWhitespace (s : String) : String :=
  ⟨s.data.filter (fun c => !c.isWhitespace)⟩

/-- Whether a line holds white space only. -/
def isBlank (l : String) : Bool :=
  l.data.all Char.isWhitespace

/-- The lines of a file that are not blank, in order. -/
def nonBlank (f : List String) : List String :=
  f.filter (fun l => !isBlank l)

/-- Whether a line begins with an `@tailwind` directive. -/
def isTailwindDirective (l : String) : Bool :=
  startsWith (trimStart l) "@tailwind"

/-- Whether a line is an import of the global style sheet. -/
def importsGlobals (l : String) : Bool :=
  startsWith (trimStart l) "import" && includes l "../styles/globals.css"

/-- Whether a line carries one of the script keywords `import`, `export`,
`function` anywhere in it. -/
def hasScriptSyntax (l : String) : Bool :=
  includes l "import" || includes l "export" || includes l "function"

/-- The first token of a file: the characters from the first one that is not
white space up to the next white space. -/
def firstToken (f : List String) : String :=
  ⟨((String.intercalate "\n" f).data.dropWhile Char.isWhitespace).takeWhile
    (fun c => !c.isWhitespace)⟩

/-- The paths of the project files having a line that satisfies `q`, one entry
per such line. -/
def linesWhere (q : String → Bool) (files : List (String × List String)) : List String :=
  files.flatMap (fun f => (f.2.filter q).map (fun _ => f.1))

/-! ## Reading markup -/

/-- A portfolio placeholder block: a `div` whose only child is an `img`. -/
def isBlock (n : Node) : Bool :=
  n.hasTag "div" &&
    match n.children with
    | [c] => c.hasTag "img"
    | _ => false

/-- The placeholder blocks below a node, in document order. -/
def blocks (n : Node) : List Node :=
  n.descendants.filter isBlock

/-- The value of attribute `name` on the first child of a block (its image). -/
def imgAttr (b : Node) (name : String) : Option String :=
  b.children.head?.bind (fun c => c.attr name)

/-- The hero section: the first child of the root of a page. -/
def hero (page : Node) : Option Node :=
  page.children.head?

/-- The fragments of the in-page links of a tree: for each anchor whose `href`
begins with `#`, the `href` without that character, in document order. -/
def fragments (page : Node) : List String :=
  (page.byTag "a").filterMap (fun a =>
    match a.attr "href" with
    | some h => if startsWith h "#" then some ⟨h.data.drop 1⟩ else none
    | none => none)

/-- Whether a line is a `body` rule that declares `font-family`. -/
def isBodyFontRule (l : String) : Bool :=
  startsWith (trimStart l) "body" && includes l "\x7b" && includes l "font-family:"
    && includes l "\x7d"

/-! ## Compiling the script files

A `.ts` or `.tsx` file runs as the JavaScript left when the TypeScript compiler
has erased its type syntax.  Two forms of type syntax occur in the files of the
document: a type-only import declaration and a type annotation on a
parameter. -/

/-- Characters of identifiers and keywords. -/
def isWordChar (c : Char) : Bool :=
  c.isAlphanum || c == '_' || c == '$'

/-- The token held in the reversed characters `w`, if any. -/
def flush (w : List Char) : List String :=
  if w.isEmpty then [] else [String.mk w.reverse]

/-- Tokens of a character sequence: words, string literals between single
quotes (kept whole, quotes included), and every other character that is not
white space on its own.  `inStr` says whether a string literal is open and `w`
holds the characters of the current token, reversed. -/
def lex : Bool → List Char → List Char → List String
  | _, w, [] => flush w
  | true, w, c :: cs =>
    if c == Char.ofNat 39 then String.mk (c :: w).reverse :: lex false [] cs
    else lex true (c :: w) cs
  | false, w, c :: cs =>
    if c == Char.ofNat 39 then flush w ++ lex true [c] cs
    else if isWordChar c then lex false (c :: w) cs
    else if c.isWhitespace then flush w ++ lex false [] cs
    else flush w ++ String.mk [c] :: lex false [] cs

/-- Tokens of a file given by its lines. -/
def tokens (code : List String) : List String :=
  lex false [] (String.intercalate "\n" code).data

/-- Where the type eraser is: in plain code, after the word `import`, inside a
type-only import, after the word `function`, after the name of a function,
inside a parameter list at some brace depth, or inside the type of a
parameter. -/
inductive Scan where
  | code
  | afterImport
  | typeImport
  | afterFunction
  | afterName
  | params (depth : Nat)
  | paramType

/-- Erasure of type syntax from a token sequence: a declaration opened by
`import type` is dropped up to its semicolon, and in the parameter list of a
`function` a colon outside braces drops the tokens up to the next comma or the
closing parenthesis.  Every other token is kept. -/
def eraseTypes : Scan → List String → List String
  | .afterImport, [] => ["import"]
  | _, [] => []
  | .code, t :: ts =>
    if t == "import" then eraseTypes .afterImport ts
    else if t == "function" then t :: eraseTypes .afterFunction ts
    else t :: eraseTypes .code ts
  | .afterImport, t :: ts =>
    if t == "type" then eraseTypes .typeImport ts
    else "import" :: t :: eraseTypes .code ts
  | .typeImport, t :: ts =>
    if t == ";" then eraseTypes .code ts else eraseTypes .typeImport ts
  | .afterFunction, t :: ts =>
    if t == "(" then t :: eraseTypes (.params 0) ts
    else t :: eraseTypes .afterName ts
  | .afterName, t :: ts =>
    if t == "(" then t :: eraseTypes (.params 0) ts
    else t :: eraseTypes .code ts
  | .params d, t :: ts =>
    if t == "\x7b" then t :: eraseTypes (.params (d + 1)) ts
    else if t == "\x7d" then t :: eraseTypes (.params (d - 1)) ts
    else if t == ")" && d == 0 then t :: eraseTypes .code ts
    else if t == ":" && d == 0 then eraseTypes .paramType ts
    else t :: eraseTypes (.params d) ts
  | .paramType, t :: ts =>
    if t == ")" then t :: eraseTypes .code ts
    else if t == "," then t :: eraseTypes (.params 0) ts
    else eraseTypes .paramType ts

/-- Whether the characters `l` end with the characters `s`. -/
def endsWith (l s : String) : Bool :=
  opens s.data.reverse l.data.reverse

/-- The JavaScript tokens a script file is run as: type syntax is erased from a
`.ts` or `.tsx` file, any other file is taken as it is. -/
def compile (path : String) (code : List String) : List String :=
  if endsWith path ".tsx" || endsWith path ".ts" then eraseTypes .code (tokens code)
  else tokens code

/-- Modelled from the spec: the file `pages/index.tsx` is not written out in the
document; the note on source line 156 says it holds the exact same code as
`pages/index.js`, and the spec speaks of swapping the extension given
identical markup. -/
def pages_index_tsx : List String :=
  pages_index_js

/-- The parts of a shell module of the form
`import S; export default function N(A, B between braces) (return <T ...P />;)`. -/
structure ShellSyntax where
  name : String
  bound : List String
  elemType : String
  spreadArg : String
  deriving DecidableEq

/-- Reads a shell module of that form from its tokens. -/
def parseShell : List String → Option ShellSyntax
  | ["import", _, ";", "export", "default", "function", name, "(", "\x7b", a, ",", b, "\x7d", ")",
      "\x7b", "return", "<", t, "\x7b", ".", ".", ".", p, "\x7d", "/", ">", ";", "\x7d"] =>
    some { name := name, bound := [a, b], elemType := t, spreadArg := p }
  | _ => none

/-- What a variable of the shell holds. -/
inductive Binding (α : Type) where
  | component (c : FunctionComponent α)
  | object (o : Obj α)
  | other

/-- The variable `x` after the parameter pattern has bound the names `bound` to
the properties of the argument that carry these names. -/
def lookupVar {α R : Type} (bound : List String) (arg : AppProps α R) (x : String) :
    Binding α :=
  if bound.contains x then
    if x == "Component" then .component arg.Component
    else if x == "pageProps" then .object arg.pageProps
    else .other
  else .other

/-- Runs the `return` of a shell module on an argument: the element type must
hold a component and the spread argument an object. -/
def evalShell {α R : Type} [ToString α] (s : ShellSyntax) (arg : AppProps α R) :
    Option (Element α) :=
  match lookupVar s.bound arg s.elemType, lookupVar s.bound arg s.spreadArg with
  | .component c, .object o => some (jsx c (spread o))
  | _, _ => none

/-- Runs the shell module given by JavaScript tokens on an argument. -/
def runShell {α R : Type} [ToString α] (js : List String) (arg : AppProps α R) :
    Option (Element α) :=
  (parseShell js).bind (fun s => evalShell s arg)

/-- The shell `MyApp` of `pages/_app.tsx` (source lines 99 to 104): what the
compiled file computes. -/
def MyAppTs {α R : Type} [ToString α] (arg : AppProps α R) : Option (Element α) :=
  runShell (compile "pages/_app.tsx" pages_app_tsx) arg

/-! ## The homepage -/

/-- C1: the tree returned by `Home()` has exactly one element with id
`portfolio`; below it there are exactly six placeholder blocks (a `div` with a
single `img` child), they hold all the images of that section, their `alt`
labels are `Project 1` to `Project 6` in that order, and their React keys are
`1` to `6` in the same order, pairwise distinct. -/
theorem home_portfolio_six_blocks :
    ∃ sec : Node, (Home ()).byId "portfolio" = [sec] ∧
      sec.tag? = some "section" ∧
      (blocks sec).length = 6 ∧
      (sec.byTag "img").length = 6 ∧
      (blocks sec).map (fun b => imgAttr b "alt") =
        [some "Project 1", some "Project 2", some "Project 3",
         some "Project 4", some "Project 5", some "Project 6"] ∧
      (blocks sec).map Node.key? = [some 1, some 2, some 3, some 4, some 5, some 6] ∧
      ((blocks sec).map Node.key?).Nodup := by
  refine ⟨_, rfl, ?_, ?_, ?_, ?_, ?_, ?_⟩ <;> decide

/-- C2: the tree returned by `Home()` has exactly one element with id
`contact`, and it contains exactly one anchor; the anchor's text is
`+976 36689290`, its `href` is `tel:+97636689290`, which begins with `tel:`
and continues with the displayed text stripped of its white space. -/
theorem home_contact_phone_link :
    ∃ sec a : Node, (Home ()).byId "contact" = [sec] ∧
      sec.byTag "a" = [a] ∧
      a.textContent = "+976 36689290" ∧
      a.attr "href" = some "tel:+97636689290" ∧
      a.attr "href" = some ("tel:" ++ removeWhitespace a.textContent) := by
  refine ⟨_, _, rfl, rfl, ?_, ?_, ?_⟩ <;> decide

/-- C8: `Home` has no input, so any two calls return the same tree; the root
is a `div` with exactly five children, in this order: the hero `section`
(without id, its one `h1` reading `VAM`), the sections with ids `about`,
`portfolio` and `contact`, and the `footer`. -/
theorem home_five_sections_in_order :
    (∀ u v : Unit, Home u = Home v) ∧
      (Home ()).tag? = some "div" ∧
      (Home ()).children.length = 5 ∧
      (Home ()).children.map (fun c => (c.tag?, c.attr "id")) =
        [(some "section", none), (some "section", some "about"),
         (some "section", some "portfolio"), (some "section", some "contact"),
         (some "footer", none)] ∧
      (hero (Home ())).map (fun h => (h.byTag "h1").map Node.textContent) =
        some ["VAM"] := by
  refine ⟨fun _ _ => rfl, ?_, ?_, ?_, ?_⟩ <;> decide

/-- C9: for every item `i`, the block rendered for `i` wraps one image whose
`src` is `https://via.placeholder.com/600x400?text=Project+` followed by the
decimal rendering of `i` and whose `alt` is `Project ` followed by the decimal
rendering of `i`; the attributes of the `div` and the `className` of the image
are the same for every item.  The grid of the portfolio section is this block
mapped over `[1,2,3,4,5,6]`, and the six `src` URLs are pairwise distinct. -/
theorem portfolio_item_src_alt :
    (∀ i : Nat,
      imgAttr (portfolioItem i) "src" =
        some ("https://via.placeholder.com/600x400?text=Project+" ++ toString i) ∧
      imgAttr (portfolioItem i) "alt" = some ("Project " ++ toString i) ∧
      (portfolioItem i).attrs =
        [("className", "bg-gray-800 h-64 rounded-2xl shadow-lg overflow-hidden")] ∧
      (portfolioItem i).children.map Node.attrs =
        [[("src", "https://via.placeholder.com/600x400?text=Project+" ++ toString i),
          ("alt", "Project " ++ toString i),
          ("className", "w-full h-full object-cover")]] ∧
      isBlock (portfolioItem i) = true) ∧
    (∃ sec : Node, (Home ()).byId "portfolio" = [sec] ∧
      blocks sec = [1, 2, 3, 4, 5, 6].map portfolioItem ∧
      ((blocks sec).map (fun b => imgAttr b "src")).Nodup) := by
  refine ⟨fun i => ⟨rfl, rfl, rfl, rfl, rfl⟩, _, rfl, rfl, ?_⟩
  decide

/-- C10: the anchors of the tree returned by `Home()` whose `href` begins with
`#` are exactly the two hero links, to `portfolio` and to `contact`; each of
these fragments is the id of exactly one element of the tree, and the ids of
the tree, `about`, `portfolio`, `contact`, are pairwise distinct. -/
theorem home_fragment_links_resolve :
    fragments (Home ()) = ["portfolio", "contact"] ∧
      (hero (Home ())).map fragments = some ["portfolio", "contact"] ∧
      (fragments (Home ())).map (fun f => ((Home ()).byId f).length) = [1, 1] ∧
      (Home ()).ids = ["about", "portfolio", "contact"] ∧
      (Home ()).ids.Nodup := by
  refine ⟨?_, ?_, ?_, ?_, ?_⟩ <;> decide

/-! ## The application shell -/

set_option maxRecDepth 1000000

/-- Assigning a property the object does not have adds it last. -/
theorem Obj.set_of_not_mem {α : Type} (o : Obj α) (name : String) (v : Value α)
    (h : name ∉ o.names) : o.set name v = o ++ [(name, v)] := by
  induction o with
  | nil => rfl
  | cons p rest ih =>
    obtain ⟨n, w⟩ := p
    have hn : ¬ n = name := fun e => h (by simp [Obj.names, e])
    have hrest : name ∉ Obj.names rest := fun m => h (by
      simp only [Obj.names, List.map_cons, List.mem_cons]
      exact Or.inr m)
    simp [Obj.set, hn, ih hrest]

/-- Reading a property the object does not have gives nothing. -/
theorem Obj.get?_of_not_mem {α : Type} (o : Obj α) (name : String) (h : name ∉ o.names) :
    o.get? name = none := by
  induction o with
  | nil => rfl
  | cons p rest ih =>
    obtain ⟨n, w⟩ := p
    have hn : ¬ n = name := fun e => h (by simp [Obj.names, e])
    have hrest : name ∉ Obj.names rest := fun m => h (by
      simp only [Obj.names, List.map_cons, List.mem_cons]
      exact Or.inr m)
    have hb : (n == name) = false := by simpa using hn
    have := ih hrest
    simp only [Obj.get?, Option.map_eq_none'] at this ⊢
    simp [List.find?, hb, this]

/-- The copying loop appends to the target, in order, the source properties
that are not skipped, when no name occurs twice. -/
theorem Obj.assignExcept_eq {α : Type} (skip : List String) (source target : Obj α)
    (h : (Obj.names (target ++ source)).Nodup) :
    Obj.assignExcept skip target source =
      target ++ source.filter (fun p => !skip.contains p.1) := by
  induction source generalizing target with
  | nil => simp [Obj.assignExcept]
  | cons p rest ih =>
    have hp : p.1 ∉ Obj.names target := by
      intro m
      simp only [Obj.names, List.map_append, List.map_cons] at h m
      have := (List.nodup_append.mp h).2.2
      exact this m (List.mem_cons_self _ _)
    by_cases hs : p.1 ∈ skip
    · have h2 : (Obj.names (target ++ rest)).Nodup := by
        simp only [Obj.names, List.map_append, List.map_cons] at h ⊢
        exact h.sublist ((List.Sublist.refl _).append (List.sublist_cons_self _ _))
      have := ih target h2
      simp only [Obj.assignExcept, List.elem_eq_mem, decide_eq_true_eq] at this ⊢
      simp [hs, this]
    · have h2 : (Obj.names ((target ++ [p]) ++ rest)).Nodup := by
        simpa using h
      have := ih (target ++ [p]) h2
      simp only [Obj.assignExcept, List.elem_eq_mem, decide_eq_true_eq] at this ⊢
      simp [hs, Obj.set_of_not_mem target p.1 p.2 hp, this]

/-- Spreading a well-formed object gives an equal object. -/
theorem spread_eq {α : Type} (o : Obj α) (h : (Obj.names o).Nodup) : spread o = o := by
  have := Obj.assignExcept_eq [] o [] (by simpa using h)
  simpa [spread] using this

/-- The props of the element built by `MyApp`, for a component without
`defaultProps`: the properties of `pageProps` that are not reserved. -/
theorem myApp_props_eq_filter {α R : Type} [ToString α] (arg : AppProps α R)
    (hnames : (Obj.names arg.pageProps).Nodup) (hdefaults : arg.Component.defaultProps = none) :
    (MyApp arg).props = arg.pageProps.filter (fun p => !RESERVED_PROPS.contains p.1) := by
  obtain ⟨c, o, r⟩ := arg
  simp only at hnames hdefaults
  have h := Obj.assignExcept_eq RESERVED_PROPS o [] (by simpa using hnames)
  simp only [MyApp, jsx, spread_eq o hnames, hdefaults, resolveDefaultProps, h, List.nil_append]

/-- The shell modules parse to the same parts, whether `pages/_app.js` is taken
as it is or `pages/_app.tsx` is compiled. -/
theorem parseShell_app :
    parseShell (compile "pages/_app.js" pages_app_js) =
        some ⟨"MyApp", ["Component", "pageProps"], "Component", "pageProps"⟩ ∧
      parseShell (compile "pages/_app.tsx" pages_app_tsx) =
        some ⟨"MyApp", ["Component", "pageProps"], "Component", "pageProps"⟩ := by
  constructor <;> decide

/-- C4, as the claim states it, fails.  For the props object with the
properties `key` and `title`, `MyApp` builds an element whose props hold
`title` only, so the component that lists its props renders `title` where the
component applied to the props object itself renders `keytitle`; and for a
component with a default for `theme`, the element's props hold `theme` although
the props object has no such property. -/
theorem myApp_withholds_key_and_adds_defaults :
    (MyApp ⟨showProps, [("key", .val "k"), ("title", .val "VAM")], ()⟩).props =
        [("title", .val "VAM")] ∧
      (MyApp ⟨showProps, [("key", .val "k"), ("title", .val "VAM")], ()⟩).key = some "k" ∧
      (MyApp ⟨showProps, [("key", .val "k"), ("title", .val "VAM")], ()⟩).render.textContent =
        "title" ∧
      (showProps.fn [("key", .val "k"), ("title", .val "VAM")]).textContent = "keytitle" ∧
      (MyApp ⟨showPropsWithDefault, [("title", .val "VAM")], ()⟩).props =
        [("title", .val "VAM"), ("theme", .val "dark")] ∧
      (MyApp ⟨showPropsWithDefault, [("title", .val "VAM")], ()⟩).render.textContent =
        "titletheme" ∧
      (showPropsWithDefault.fn [("title", .val "VAM")]).textContent = "title" := by
  refine ⟨?_, ?_, ?_, ?_, ?_, ?_, ?_⟩ <;> decide

/-- C4, amended: for every page component without `defaultProps` and every
props object (its property names distinct) that has no property named `key`,
`ref`, `__self` or `__source`, the element returned by `MyApp` has that
component as its type, exactly those props, no key and no ref, and rendering
it gives the component applied to the props object, with no node around it;
the other properties of the argument do not matter. -/
theorem myApp_renders_page_unchanged (α R : Type) [ToString α]
    (Component : FunctionComponent α) (pageProps : Obj α) (rest : R)
    (hnames : (Obj.names pageProps).Nodup)
    (hreserved : ∀ n ∈ RESERVED_PROPS, n ∉ Obj.names pageProps)
    (hdefaults : Component.defaultProps = none) :
    (MyApp ⟨Component, pageProps, rest⟩).type = Component ∧
      (MyApp ⟨Component, pageProps, rest⟩).props = pageProps ∧
      (MyApp ⟨Component, pageProps, rest⟩).key = none ∧
      (MyApp ⟨Component, pageProps, rest⟩).ref = none ∧
      (MyApp ⟨Component, pageProps, rest⟩).render = Component.fn pageProps := by
  have hprops : (MyApp ⟨Component, pageProps, rest⟩).props = pageProps := by
    rw [myApp_props_eq_filter ⟨Component, pageProps, rest⟩ hnames hdefaults]
    apply List.filter_eq_self.mpr
    intro p hp
    have hmem : p.1 ∈ Obj.names pageProps := List.mem_map_of_mem (fun q => q.1) hp
    have hnot : ¬ p.1 ∈ RESERVED_PROPS := fun hr => hreserved p.1 hr hmem
    simpa using hnot
  have hkey : Obj.get? (spread pageProps) "key" = none := by
    rw [spread_eq pageProps hnames]
    exact Obj.get?_of_not_mem pageProps "key" (hreserved "key" (by decide))
  have href : Obj.get? (spread pageProps) "ref" = none := by
    rw [spread_eq pageProps hnames]
    exact Obj.get?_of_not_mem pageProps "ref" (hreserved "ref" (by decide))
  refine ⟨rfl, hprops, ?_, ?_, ?_⟩
  · simp only [MyApp, jsx, hkey]
  · simp only [MyApp, jsx, href]
  · rw [Element.render, hprops]
    rfl

/-- The amended C4 at the component that lists its props and the props object
with the one property `title`. -/
theorem myApp_renders_page_unchanged_witness :
    (Obj.names [("title", Value.val "VAM")]).Nodup ∧
      (∀ n ∈ RESERVED_PROPS, n ∉ Obj.names [("title", Value.val "VAM")]) ∧
      showProps.defaultProps = none ∧
      ((MyApp ⟨showProps, [("title", .val "VAM")], ()⟩).type = showProps ∧
        (MyApp ⟨showProps, [("title", .val "VAM")], ()⟩).props = [("title", .val "VAM")] ∧
        (MyApp ⟨showProps, [("title", .val "VAM")], ()⟩).key = none ∧
        (MyApp ⟨showProps, [("title", .val "VAM")], ()⟩).ref = none ∧
        (MyApp ⟨showProps, [("title", .val "VAM")], ()⟩).render =
          showProps.fn [("title", .val "VAM")]) :=
  ⟨by decide, by decide, rfl,
    myApp_renders_page_unchanged String Unit showProps [("title", .val "VAM")] ()
      (by decide) (by decide) rfl⟩

/-- C7: compiling `pages/_app.tsx` erases the type-only import and the
parameter annotation and leaves, token for token, the code of `pages/_app.js`,
from which the source differs; run on any argument, the compiled TypeScript
shell and the JavaScript shell both return the element that `MyApp` returns.
Compiling the homepage saved as `pages/index.tsx` leaves, token for token, the
code of `pages/index.js`, which begins `export default function Home(`. -/
theorem tsx_variants_render_identically :
    compile "pages/_app.tsx" pages_app_tsx = compile "pages/_app.js" pages_app_js ∧
      compile "pages/_app.js" pages_app_js = tokens pages_app_js ∧
      tokens pages_app_tsx ≠ tokens pages_app_js ∧
      (∀ (α R : Type) [ToString α] (arg : AppProps α R),
        MyAppTs arg = some (MyApp arg) ∧
        runShell (compile "pages/_app.js" pages_app_js) arg = some (MyApp arg)) ∧
      compile "pages/index.tsx" pages_index_tsx = compile "pages/index.js" pages_index_js ∧
      compile "pages/index.js" pages_index_js = tokens pages_index_js ∧
      (tokens pages_index_js).take 5 = ["export", "default", "function", "Home", "("] := by
  refine ⟨by decide, by decide, by decide, ?_, by decide, by decide, by decide⟩
  intro α R _ arg
  obtain ⟨c, o, r⟩ := arg
  constructor
  · rw [MyAppTs, runShell, parseShell_app.2]
    rfl
  · rw [runShell, parseShell_app.1]
    rfl

/-! ## The style sheet and the project layout -/

/-- C3: the first three non-blank lines of `styles/globals.css` are the
directives `@tailwind base;`, `@tailwind components;`, `@tailwind utilities;`
in that order, the next (and last) non-blank line is a `body` rule declaring
`font-family`, and no line of the file contains `import`, `export` or
`function`. -/
theorem globals_css_directives_first :
    (nonBlank styles_globals_css).take 3 =
        ["@tailwind base;", "@tailwind components;", "@tailwind utilities;"] ∧
      ((nonBlank styles_globals_css).drop 3).map isBodyFontRule = [true] ∧
      styles_globals_css.filter hasScriptSyntax = [] := by
  refine ⟨?_, ?_, ?_⟩ <;> decide

/-- C5: the prescribed project consists of the six files `package.json`,
`postcss.config.js`, `tailwind.config.js`, `pages/_app.js`, `pages/index.js`
and `styles/globals.css`; every line beginning with an `@tailwind` directive
is in `styles/globals.css`, the import of `../styles/globals.css` occurs on
exactly one line, in `pages/_app.js`; `pages/index.js` has no such import and
its first token is `export`, which does not begin with `@`. -/
theorem style_import_only_in_app :
    project.map (fun f => f.1) =
        ["package.json", "postcss.config.js", "tailwind.config.js", "pages/_app.js",
         "pages/index.js", "styles/globals.css"] ∧
      linesWhere isTailwindDirective project =
        ["styles/globals.css", "styles/globals.css", "styles/globals.css"] ∧
      linesWhere importsGlobals project = ["pages/_app.js"] ∧
      pages_index_js.filter importsGlobals = [] ∧
      firstToken pages_index_js = "export" ∧
      startsWith (firstToken pages_index_js) "@" = false := by
  refine ⟨?_, ?_, ?_, ?_, ?_, ?_⟩ <;> decide

/-! ## The fallback page -/

/-- C6: `fallback.html` has exactly one `body`; it contains exactly one `h1`,
reading `VAM`, exactly one paragraph, reading
`Designs that Speak. Creativity that Lasts.`, and exactly two anchors,
labelled `View Portfolio` and `Hire Me` in that order; these texts are the
texts of the `h1`, `p` and anchors of the hero section returned by `Home()`. -/
theorem fallback_matches_hero :
    ∃ body heroSec : Node, fallback_html.byTag "body" = [body] ∧
      hero (Home ()) = some heroSec ∧
      (body.byTag "h1").map Node.textContent = ["VAM"] ∧
      (body.byTag "p").map Node.textContent =
        ["Designs that Speak. Creativity that Lasts."] ∧
      (body.byTag "a").map Node.textContent = ["View Portfolio", "Hire Me"] ∧
      (heroSec.byTag "h1").map Node.textContent = (body.byTag "h1").map Node.textContent ∧
      (heroSec.byTag "p").map Node.textContent = (body.byTag "p").map Node.textContent ∧
      (heroSec.byTag "a").map Node.textContent = (body.byTag "a").map Node.textContent := by
  refine ⟨_, _, rfl, rfl, ?_, ?_, ?_, ?_, ?_, ?_⟩ <;> decide

end Vam
